import Mathlib

/-!
Verification of the scrape-and-enrich pipeline of the emlak backend
(backend/server.py).  The Python source is shallowly embedded: pure data
construction becomes Lean functions, exception control flow becomes
explicit Except values, and the external world (browser, AI service,
document store) is modelled by explicit outcome parameters.  Fields whose
values are nondeterministic at run time (uuid ids, timestamps) are omitted
from the record embeddings; no claim mentions them.
-/

namespace Emlak

/-- PropertyListing (server.py lines 61-75), without the uuid id and the
processed_date timestamp.  Every text field defaults to the empty string,
exactly as in the pydantic model. -/
structure PropertyListing where
  owner_name : String := ""
  contact_number : String := ""
  room_count : String := ""
  net_area : String := ""
  is_in_complex : String := ""
  complex_name : String := ""
  heating_type : String := ""
  parking_type : String := ""
  credit_suitable : String := ""
  price : String := ""
  listing_date : String := ""
  raw_html : String := ""
deriving DecidableEq, Repr

/-- ScrapingRequest (server.py lines 56-59).  month and year are python
ints, embedded as Int. -/
structure ScrapingRequest where
  url : String
  month : Int
  year : Int := 2025
deriving DecidableEq, Repr

/-- ScrapingResult (server.py lines 77-86), the job record persisted in the
document store, without the uuid id and created_date.  error_message is the
extra field set by the error path of perform_scraping. -/
structure JobRecord where
  url : String
  month : Int
  year : Int
  total_listings : Nat
  processed_listings : Nat
  status : String
  listings : List PropertyListing
  error_message : Option String
deriving DecidableEq, Repr

/-- The month_names dict of create_demo_listings_from_content
(server.py lines 228-231).  A key outside 1..12 raises KeyError in python,
embedded as none. -/
def monthNames (m : Int) : Option String :=
  if m = 1 then some "Ocak" else if m = 2 then some "Şubat"
  else if m = 3 then some "Mart" else if m = 4 then some "Nisan"
  else if m = 5 then some "Mayıs" else if m = 6 then some "Haziran"
  else if m = 7 then some "Temmuz" else if m = 8 then some "Ağustos"
  else if m = 9 then some "Eylül" else if m = 10 then some "Ekim"
  else if m = 11 then some "Kasım" else if m = 12 then some "Aralık"
  else none

/-- create_demo_listings (server.py lines 162-220): the fixed 3-element
demo set returned when the browser fails to launch.  listing_date is left
at its default (empty). -/
def create_demo_listings : List PropertyListing :=
  [ { owner_name := "Ahmet Yılmaz", contact_number := "0532 123 45 67",
      room_count := "3+1", net_area := "120 m²", is_in_complex := "Evet",
      complex_name := "Prestij Sitesi", heating_type := "Kombi",
      parking_type := "Kapalı", credit_suitable := "Evet",
      price := "850.000 TL",
      raw_html := "<html><body>Demo listing for Ahmet Yılmaz</body></html>" },
    { owner_name := "Fatma Demir", contact_number := "0543 987 65 43",
      room_count := "2+1", net_area := "95 m²", is_in_complex := "Hayır",
      complex_name := "", heating_type := "Merkezi Isıtma",
      parking_type := "Açık", credit_suitable := "Evet",
      price := "650.000 TL",
      raw_html := "<html><body>Demo listing for Fatma Demir</body></html>" },
    { owner_name := "Mehmet Kaya", contact_number := "0555 321 98 76",
      room_count := "4+1", net_area := "150 m²", is_in_complex := "Evet",
      complex_name := "Luxury Residence", heating_type := "Klima",
      parking_type := "Kapalı", credit_suitable := "Hayır",
      price := "1.200.000 TL",
      raw_html := "<html><body>Demo listing for Mehmet Kaya</body></html>" } ]

/-- Builds one of the 4 enhanced demo records of
create_demo_listings_from_content given the resolved month name
(server.py lines 233-304).  The f-strings for listing_date and raw_html
are reproduced literally; the year is the literal 2025 from the source. -/
def demoRecordFromContent (owner phone room area inComplex cname heat park
    credit priceV day mname : String) : PropertyListing :=
  { owner_name := owner, contact_number := phone, room_count := room,
    net_area := area, is_in_complex := inComplex, complex_name := cname,
    heating_type := heat, parking_type := park, credit_suitable := credit,
    price := priceV,
    listing_date := day ++ " " ++ mname ++ " 2025",
    raw_html := "<html><body>İlan tarihi: " ++ day ++ " " ++ mname ++
      " 2025<br>İlan sahibi: " ++ owner ++ "</body></html>" }

/-- The 4 enhanced demo records of create_demo_listings_from_content for a
resolved month name (server.py lines 233-286). -/
def demoListFor (mname : String) : List PropertyListing :=
  [ demoRecordFromContent "Ali Özkan" "0535 444 22 11" "3+1" "110 m²"
      "Evet" "Modern Yaşam Sitesi" "Kombi" "Kapalı" "Evet"
      "750.000 TL" "15" mname,
    demoRecordFromContent "Zeynep Aksoy" "0542 777 88 99" "2+1" "85 m²"
      "Hayır" "" "Doğalgaz" "Yok" "Evet" "520.000 TL" "22" mname,
    demoRecordFromContent "Hasan Çelik" "0533 999 11 22" "4+2" "180 m²"
      "Evet" "VIP Residence" "Merkezi Isıtma" "Kapalı" "Hayır"
      "1.500.000 TL" "8" mname,
    demoRecordFromContent "Ayşe Erdoğan" "0544 123 45 67" "1+1" "60 m²"
      "Hayır" "" "Klima" "Açık" "Evet" "380.000 TL" "28" mname ]

/-- create_demo_listings_from_content (server.py lines 222-306).  The
content argument is parsed by BeautifulSoup but never influences the
output; the month dict lookup raises KeyError (embedded as .error) for a
month outside 1..12.  The year in every listing_date is the literal 2025. -/
def create_demo_listings_from_content (content : String) (target_month : Int) :
    Except String (List PropertyListing) :=
  match monthNames target_month with
  | none => .error "KeyError: month_names"
  | some mname => .ok (demoListFor mname)

/-- The hard-coded fallback content string used by the navigation-failure
handler and the outer except handler of scrape_sahibinden_listings
(server.py lines 151 and 158). -/
def demoContent : String := "<html><body>Demo content</body></html>"

/-- Outcome of the browser interaction inside scrape_sahibinden_listings:
launch failure (line 124), failure of the page/header setup after launch
(caught by the outer except, line 155), navigation failure (line 148), or
a successfully rendered page with its content (line 143). -/
inductive BrowserOutcome where
  | launchFail
  | setupFail
  | navFail
  | navOk (content : String)

/-- scrape_sahibinden_listings (server.py lines 112-160).
Control flow reproduced from the source:
launch failure returns create_demo_listings immediately;
navigation failure is handled by recomputing the demo listings from the
fixed demoContent string, and if that in turn raises (month outside 1..12)
the exception reaches the outer except handler, which tries the same call
once more and lets its exception escape the function;
a setup failure after launch goes straight to the outer handler.
The url and target_year parameters are accepted but, as in the source,
never influence the produced listings. -/
def scrape_sahibinden_listings (outcome : BrowserOutcome) (url : String)
    (target_month : Int) (target_year : Int) :
    Except String (List PropertyListing) :=
  match outcome with
  | .launchFail => .ok create_demo_listings
  | .setupFail => create_demo_listings_from_content demoContent target_month
  | .navOk content =>
    match create_demo_listings_from_content content target_month with
    | .ok l => .ok l
    | .error _ =>
      match create_demo_listings_from_content demoContent target_month with
      | .ok l => .ok l
      | .error _ => create_demo_listings_from_content demoContent target_month
  | .navFail =>
    match create_demo_listings_from_content demoContent target_month with
    | .ok l => .ok l
    | .error _ => create_demo_listings_from_content demoContent target_month

/-- The fields of the JSON object parsed from the AI response; none means
the model omitted the key, so ai_data.get falls back to its default
(server.py lines 364-373). -/
structure AiFields where
  owner_name : Option String := none
  contact_number : Option String := none
  room_count : Option String := none
  net_area : Option String := none
  is_in_complex : Option String := none
  complex_name : Option String := none
  heating_type : Option String := none
  parking_type : Option String := none
  credit_suitable : Option String := none
  price : Option String := none
deriving DecidableEq, Repr

/-- Outcome of the AI sub-call in process_listing_with_ai: the chat call
raised (caught at line 381), the response was not valid JSON (caught at
line 377), or a JSON object was parsed. -/
inductive AiOutcome where
  | callRaise
  | badJson
  | parsed (fields : AiFields)

/-- Environment for one extraction: whether GEMINI_API_KEY is configured
(line 316), the outcome of the AI call, and whether the heuristic fallback
block itself raises unexpectedly (the only raise site of the try body not
covered by an inner handler, reaching the outer except at line 410). -/
structure ExtractEnv where
  geminiKey : Bool
  ai : AiOutcome
  fallbackRaise : Bool

/-- The AI-path field population (server.py lines 364-373): each field is
taken from the parsed object, with the source defaults for missing keys. -/
def applyAi (fields : AiFields) (l : PropertyListing) : PropertyListing :=
  { l with
    owner_name := fields.owner_name.getD "Tespit Edilemedi",
    contact_number := fields.contact_number.getD "Tespit Edilemedi",
    room_count := fields.room_count.getD "Belirtilmemiş",
    net_area := fields.net_area.getD "Belirtilmemiş",
    is_in_complex := fields.is_in_complex.getD "Belirtilmemiş",
    complex_name := fields.complex_name.getD "",
    heating_type := fields.heating_type.getD "Belirtilmemiş",
    parking_type := fields.parking_type.getD "Belirtilmemiş",
    credit_suitable := fields.credit_suitable.getD "Belirtilmemiş",
    price := fields.price.getD "Belirtilmemiş" }

/-- The heuristic default fill of the fallback block (server.py lines
390-408): each still-empty field receives its fixed placeholder.
complex_name is absent from this block in the source and is left as is. -/
def heuristicFill (l : PropertyListing) : PropertyListing :=
  { l with
    owner_name := if l.owner_name = "" then "HTML Parse Gerekli" else l.owner_name,
    contact_number := if l.contact_number = "" then "Detay Sayfasında" else l.contact_number,
    room_count := if l.room_count = "" then "Belirtilmemiş" else l.room_count,
    net_area := if l.net_area = "" then "Belirtilmemiş" else l.net_area,
    is_in_complex := if l.is_in_complex = "" then "Belirtilmemiş" else l.is_in_complex,
    heating_type := if l.heating_type = "" then "Belirtilmemiş" else l.heating_type,
    parking_type := if l.parking_type = "" then "Belirtilmemiş" else l.parking_type,
    credit_suitable := if l.credit_suitable = "" then "Belirtilmemiş" else l.credit_suitable,
    price := if l.price = "" then "Belirtilmemiş" else l.price }

/-- The fallback section of process_listing_with_ai (server.py lines
385-408): guarded by owner_name or price being empty; inside the guard the
BeautifulSoup step may raise (modelled by fallbackRaise), which escapes to
the outer except handler. -/
def fallbackFill (env : ExtractEnv) (l : PropertyListing) :
    Except String PropertyListing :=
  if l.owner_name = "" ∨ l.price = "" then
    if env.fallbackRaise then .error "unexpected" else .ok (heuristicFill l)
  else .ok l

/-- The body of the outer try of process_listing_with_ai (server.py lines
310-408).  Python truthiness of the strings gives the short-circuit guard
at line 312.  A raised AI call and a JSON parse failure both fall through
to the fallback section, as in the source. -/
def ai_body (env : ExtractEnv) (l : PropertyListing) :
    Except String PropertyListing :=
  if l.owner_name ≠ "" ∧ l.price ≠ "" then .ok l
  else if env.geminiKey then
    match env.ai with
    | .parsed fields => .ok (applyAi fields l)
    | .callRaise => fallbackFill env l
    | .badJson => fallbackFill env l
  else fallbackFill env l

/-- process_listing_with_ai (server.py lines 308-416): the outer except
handler (lines 410-414) converts any escaped exception into the error
markers on owner_name and price, and the function always returns a
record. -/
def process_listing_with_ai (env : ExtractEnv) (l : PropertyListing) :
    PropertyListing :=
  match ai_body env l with
  | .ok r => r
  | .error _ => { l with owner_name := "İşlem Hatası", price := "Alınamadı" }

/-- Environment for one run of perform_scraping: the browser outcome, the
AI environment used for the i-th candidate, and which update_one calls on
the document store raise (indexed by the order of the calls within
perform_scraping; a raising call writes nothing). -/
structure PipelineEnv where
  browser : BrowserOutcome
  extract : Nat → ExtractEnv
  dbFail : Nat → Bool

/-- start_scraping (server.py lines 423-443): the immediately returned and
inserted job record, with status processing and zeroed counters. -/
def start_scraping (req : ScrapingRequest) : JobRecord :=
  { url := req.url, month := req.month, year := req.year,
    total_listings := 0, processed_listings := 0,
    status := "processing", listings := [], error_message := none }

/-- The except handler of perform_scraping (server.py lines 484-489): one
more update_one call setting status error and error_message.  If that call
itself raises, the exception escapes the background task and the store is
left untouched, so the produced trace fragment is empty. -/
def errorUpdateTrace (env : PipelineEnv) (k : Nat) (j : JobRecord)
    (msg : String) : List JobRecord :=
  if env.dbFail k then []
  else [{ j with status := "error", error_message := some msg }]

/-- The per-candidate loop and final update of perform_scraping
(server.py lines 463-482): each candidate is processed (never raises),
then a progress update persists the running count; after the last
candidate a single final update writes the whole listings array and the
status completed.  k counts update_one calls, i counts candidates.  Any
raising update diverts to the except handler. -/
def processLoop (env : PipelineEnv) :
    Nat → Nat → JobRecord → List PropertyListing → List PropertyListing →
    List JobRecord
  | k, _, j, [], acc =>
    if env.dbFail k then errorUpdateTrace env (k + 1) j "Scraping error"
    else [{ j with listings := acc.reverse, status := "completed" }]
  | k, i, j, cand :: rest, acc =>
    let acc2 := process_listing_with_ai (env.extract i) cand :: acc
    if env.dbFail k then errorUpdateTrace env (k + 1) j "Scraping error"
    else
      let j2 := { j with processed_listings := acc2.length }
      j2 :: processLoop env (k + 1) (i + 1) j2 rest acc2

/-- perform_scraping (server.py lines 445-489), as the trace of successive
document-store states of the job record, starting from the inserted
record.  Update call 0 sets status scraping, call 1 sets total_listings
and status processing_ai, calls 2.. are the loop and final updates; a
raising call diverts to the except handler with the next call index. -/
def perform_scraping (env : PipelineEnv) (req : ScrapingRequest) :
    List JobRecord :=
  let j0 := start_scraping req
  j0 ::
    (if env.dbFail 0 then errorUpdateTrace env 1 j0 "Scraping error"
     else
       let j1 := { j0 with status := "scraping" }
       j1 ::
         (match scrape_sahibinden_listings env.browser req.url req.month
             req.year with
          | .error msg => errorUpdateTrace env 1 j1 msg
          | .ok cands =>
            if env.dbFail 1 then errorUpdateTrace env 2 j1 "Scraping error"
            else
              let j2 : JobRecord :=
                { j1 with
                  total_listings := cands.length
                  status := "processing_ai" }
              j2 :: processLoop env 2 0 j2 cands []))

/-- The sequence of status values the store goes through for one job. -/
def statusTrace (env : PipelineEnv) (req : ScrapingRequest) : List String :=
  (perform_scraping env req).map (fun r => r.status)

/-- Last element of a trace, with the inserted record as the value for an
empty list. -/
def lastD (d : JobRecord) : List JobRecord → JobRecord
  | [] => d
  | [r] => r
  | _ :: r :: rest => lastD d (r :: rest)

/-- The job record left in the store after perform_scraping finishes. -/
def finalRecord (env : PipelineEnv) (req : ScrapingRequest) : JobRecord :=
  lastD (start_scraping req) (perform_scraping env req)

/-- Consecutive-pair check over a status sequence. -/
def chainOkB (f : String → String → Bool) : List String → Bool
  | [] => true
  | [_] => true
  | a :: b :: rest => f a b && chainOkB f (b :: rest)

/-- Every status except possibly the last is non-terminal. -/
def terminalOnlyLastB : List String → Bool
  | [] => true
  | [_] => true
  | a :: b :: rest =>
    (a != "completed" && a != "error") && terminalOnlyLastB (b :: rest)

/-- The transition relation asserted by the claim: the two chains
processing, scraping, processing_ai, completed and
processing, scraping, error, with error entered only from scraping. -/
def claimedStep (a b : String) : Bool :=
  (a == "processing" && b == "scraping") ||
  (a == "scraping" && b == "processing_ai") ||
  (a == "processing_ai" && b == "completed") ||
  (a == "scraping" && b == "error")

/-- The transition relation the code actually realises: the claimed
forward chains, stuttering progress updates while in processing_ai, and
entry into error from any non-terminal status. -/
def allowedStep (a b : String) : Bool :=
  (a == "processing" && b == "scraping") ||
  (a == "scraping" && b == "processing_ai") ||
  (a == "processing_ai" && b == "processing_ai") ||
  (a == "processing_ai" && b == "completed") ||
  (a == "processing" && b == "error") ||
  (a == "scraping" && b == "error") ||
  (a == "processing_ai" && b == "error")

/-- The header labels shared by the Excel and the PDF export
(server.py lines 515-525 and 564-565). -/
def exportHeaders : List String :=
  ["İlan Sahibi", "Telefon", "Oda Sayısı", "Net m²", "Site İçi",
   "Site Adı", "Isıtma", "Otopark", "Krediye Uygun", "Fiyat"]

/-- export_excel (server.py lines 505-539), as the rectangular table
written to the spreadsheet.  pandas derives the columns of
DataFrame(list-of-dicts) from the row dicts, so a job with no listings
yields a frame with no columns and the sheet is written entirely empty:
no header row appears. -/
def export_excel (job : JobRecord) : List (List String) :=
  let rows := job.listings.map (fun l =>
    [l.owner_name, l.contact_number, l.room_count, l.net_area,
     l.is_in_complex, l.complex_name, l.heating_type, l.parking_type,
     l.credit_suitable, l.price])
  match rows with
  | [] => []
  | _ => exportHeaders :: rows

/-- export_pdf (server.py lines 541-605), as the table_data handed to the
document renderer: the header row followed by one row per listing, with
the display truncations of the source ([:15] and [:10]). -/
def export_pdf (job : JobRecord) : List (List String) :=
  exportHeaders ::
    job.listings.map (fun l =>
      [l.owner_name.take 15, l.contact_number.take 15, l.room_count,
       l.net_area, l.is_in_complex, l.complex_name.take 10,
       l.heating_type.take 10, l.parking_type, l.credit_suitable,
       l.price.take 15])

/-- The raw JSON body of a submit-job request before validation; none
encodes an absent key. -/
structure RawScrapeBody where
  url : Option String
  month : Option Int
  year : Option Int
deriving DecidableEq, Repr

/-- Pydantic validation of ScrapingRequest (server.py lines 56-59): url
and month are required, year defaults to 2025; no range constraint is
declared on month, so any integer passes. -/
def parseScrapeBody (b : RawScrapeBody) : Except String ScrapingRequest :=
  match b.url, b.month with
  | some u, some m => .ok { url := u, month := m, year := b.year.getD 2025 }
  | _, _ => .error "422 Unprocessable Entity"

/-- Prefix test on character lists, for substring checks over the
synthesized dates. -/
def leadsWith : List Char → List Char → Bool
  | [], _ => true
  | _ :: _, [] => false
  | a :: as, b :: bs => a == b && leadsWith as bs

/-- Substring test on character lists. -/
def hasSub (pat : List Char) : List Char → Bool
  | [] => pat.isEmpty
  | b :: bs => leadsWith pat (b :: bs) || hasSub pat bs

/-- Substring test on strings. -/
def strHasSub (s pat : String) : Bool := hasSub pat.data s.data

/-- The request of test Scenario A of the spec. -/
def reqDemo : ScrapingRequest :=
  { url := "https://example.com/listings", month := 7, year := 2025 }

/-- Extraction environment with no configured AI credential. -/
def extractNoAi : ExtractEnv :=
  { geminiKey := false, ai := .callRaise, fallbackRaise := false }

/-- Extraction environment where the AI call succeeds and returns an empty
JSON object, so every field takes its AI-path default. -/
def extractAiEmpty : ExtractEnv :=
  { geminiKey := true, ai := .parsed {}, fallbackRaise := false }

/-- Fully reliable pipeline environment: browser launch fails (the demo
fallback), no AI credential, no store failure. -/
def envOk : PipelineEnv :=
  { browser := .launchFail, extract := fun _ => extractNoAi,
    dbFail := fun _ => false }

/-- Pipeline environment where the store update of call index 2, the
first progress update inside the candidate loop, raises. -/
def envLoopDbFail : PipelineEnv :=
  { browser := .launchFail, extract := fun _ => extractNoAi,
    dbFail := fun k => k == 2 }

/-- A candidate with every field at its empty default. -/
def emptyCandidate : PropertyListing := {}

/-- A stored job with an empty listings sequence. -/
def emptyJob : JobRecord := start_scraping reqDemo

/-- The last element of a non-empty trace does not depend on the default. -/
theorem lastD_irrel (l : List JobRecord) :
    ∀ b d d', lastD d (b :: l) = lastD d' (b :: l) := by
  induction l with
  | nil => intro b d d'; rfl
  | cons c cs ih =>
    intro b d d'
    show lastD d (c :: cs) = lastD d' (c :: cs)
    exact ih c d d'

/-- Peeling the head of a trace moves it into the default slot. -/
theorem lastD_cons (d a : JobRecord) (l : List JobRecord) :
    lastD d (a :: l) = lastD a l := by
  cases l with
  | nil => rfl
  | cons b bs => exact lastD_irrel bs b d a

/-- A month inside 1..12 has a Turkish name in the month dict. -/
theorem monthNames_isSome (m : Int) (h1 : 1 ≤ m) (h2 : m ≤ 12) :
    ∃ name, monthNames m = some name := by
  interval_cases m <;> exact ⟨_, rfl⟩

/-- A month outside 1..12 misses the month dict. -/
theorem monthNames_eq_none (m : Int) (h : m < 1 ∨ 12 < m) :
    monthNames m = none := by
  have e1 : m ≠ 1 := by omega
  have e2 : m ≠ 2 := by omega
  have e3 : m ≠ 3 := by omega
  have e4 : m ≠ 4 := by omega
  have e5 : m ≠ 5 := by omega
  have e6 : m ≠ 6 := by omega
  have e7 : m ≠ 7 := by omega
  have e8 : m ≠ 8 := by omega
  have e9 : m ≠ 9 := by omega
  have e10 : m ≠ 10 := by omega
  have e11 : m ≠ 11 := by omega
  have e12 : m ≠ 12 := by omega
  simp [monthNames, e1, e2, e3, e4, e5, e6, e7, e8, e9, e10, e11, e12]

/-- A resolved month name determines the from-content demo list, for any
content. -/
theorem from_content_ok (content : String) (m : Int) (name : String)
    (hn : monthNames m = some name) :
    create_demo_listings_from_content content m = .ok (demoListFor name) := by
  unfold create_demo_listings_from_content
  rw [hn]

/-- A missing month name makes the from-content generator raise. -/
theorem from_content_err (content : String) (m : Int)
    (hn : monthNames m = none) :
    create_demo_listings_from_content content m =
      .error "KeyError: month_names" := by
  unfold create_demo_listings_from_content
  rw [hn]

/-- With a month inside 1..12 the scraper returns ok listings for every
browser outcome. -/
theorem scrape_ok_of_month (bo : BrowserOutcome) (url : String) (m y : Int)
    (h1 : 1 ≤ m) (h2 : m ≤ 12) :
    ∃ cands, scrape_sahibinden_listings bo url m y = .ok cands := by
  obtain ⟨name, hn⟩ := monthNames_isSome m h1 h2
  have hc := fun content => from_content_ok content m name hn
  cases bo with
  | launchFail => exact ⟨_, rfl⟩
  | setupFail =>
    exact ⟨demoListFor name, by
      unfold scrape_sahibinden_listings; rw [hc demoContent]⟩
  | navFail =>
    exact ⟨demoListFor name, by
      unfold scrape_sahibinden_listings; rw [hc demoContent]⟩
  | navOk content =>
    exact ⟨demoListFor name, by
      simp only [scrape_sahibinden_listings]; rw [hc content]⟩

/-- With a month outside 1..12 and any browser outcome other than a launch
failure, the month lookup raises through every fallback and the scraper
raises to its caller. -/
theorem scrape_err_of_month (bo : BrowserOutcome) (url : String) (m y : Int)
    (h : m < 1 ∨ 12 < m) (hbo : bo ≠ BrowserOutcome.launchFail) :
    ∃ e, scrape_sahibinden_listings bo url m y = .error e := by
  have hn := monthNames_eq_none m h
  have hc := fun content => from_content_err content m hn
  cases bo with
  | launchFail => exact absurd rfl hbo
  | setupFail =>
    exact ⟨"KeyError: month_names", by
      unfold scrape_sahibinden_listings; rw [hc demoContent]⟩
  | navFail =>
    exact ⟨"KeyError: month_names", by
      unfold scrape_sahibinden_listings; rw [hc demoContent]⟩
  | navOk content =>
    exact ⟨"KeyError: month_names", by
      simp only [scrape_sahibinden_listings]
      rw [hc content, hc demoContent]⟩

/-- Status invariant of the candidate loop: starting from a processing_ai
record, every store update either stutters in processing_ai, finishes in
completed, or enters error, and a terminal status is only ever the last
write. -/
theorem processLoop_status_chain (env : PipelineEnv) :
    ∀ (pending : List PropertyListing) (k i : Nat) (j : JobRecord)
      (acc : List PropertyListing), j.status = "processing_ai" →
      chainOkB allowedStep
          ((j :: processLoop env k i j pending acc).map
            (fun r => r.status)) = true ∧
      terminalOnlyLastB
          ((j :: processLoop env k i j pending acc).map
            (fun r => r.status)) = true := by
  intro pending
  induction pending with
  | nil =>
    intro k i j acc hst
    by_cases h1 : env.dbFail k = true
    · by_cases h2 : env.dbFail (k + 1) = true
      · simp [processLoop, errorUpdateTrace, h1, h2, chainOkB,
          terminalOnlyLastB, hst]
      · simp [processLoop, errorUpdateTrace, h1, h2, chainOkB,
          terminalOnlyLastB, allowedStep, hst]
    · simp [processLoop, h1, chainOkB, terminalOnlyLastB, allowedStep, hst]
  | cons cand rest ih =>
    intro k i j acc hst
    by_cases h1 : env.dbFail k = true
    · by_cases h2 : env.dbFail (k + 1) = true
      · simp [processLoop, errorUpdateTrace, h1, h2, chainOkB,
          terminalOnlyLastB, hst]
      · simp [processLoop, errorUpdateTrace, h1, h2, chainOkB,
          terminalOnlyLastB, allowedStep, hst]
    · have hmain := ih (k + 1) (i + 1)
        { j with processed_listings :=
            (process_listing_with_ai (env.extract i) cand :: acc).length }
        (process_listing_with_ai (env.extract i) cand :: acc)
        (by simp [hst])
      simp [processLoop, h1, chainOkB, terminalOnlyLastB, allowedStep,
        hst] at hmain ⊢
      exact hmain

/-- Counter invariant of the candidate loop: under the entry invariants,
every record it writes satisfies the completed-count equations when its
status is completed, and keeps the listings array empty otherwise. -/
theorem processLoop_mem (env : PipelineEnv) :
    ∀ (pending : List PropertyListing) (k i : Nat) (j : JobRecord)
      (acc : List PropertyListing) (r : JobRecord),
      r ∈ processLoop env k i j pending acc →
      j.status = "processing_ai" →
      j.processed_listings = acc.length →
      j.total_listings = acc.length + pending.length →
      j.listings = [] →
      (r.status = "completed" →
        r.processed_listings = r.total_listings ∧
        r.total_listings = r.listings.length) ∧
      (r.status ≠ "completed" → r.listings = []) := by
  intro pending
  induction pending with
  | nil =>
    intro k i j acc r hr hst hproc htot hlist
    by_cases h1 : env.dbFail k = true
    · by_cases h2 : env.dbFail (k + 1) = true
      · simp [processLoop, errorUpdateTrace, h1, h2] at hr
      · simp [processLoop, errorUpdateTrace, h1, h2] at hr
        subst hr
        refine ⟨fun hc => ?_, fun _ => by simp [hlist]⟩
        simp at hc
    · simp [processLoop, h1] at hr
      subst hr
      refine ⟨fun _ => ⟨?_, ?_⟩, fun hne => absurd (by simp) hne⟩
      · simp [hproc, htot]
      · simp [htot]
  | cons cand rest ih =>
    intro k i j acc r hr hst hproc htot hlist
    by_cases h1 : env.dbFail k = true
    · by_cases h2 : env.dbFail (k + 1) = true
      · simp [processLoop, errorUpdateTrace, h1, h2] at hr
      · simp [processLoop, errorUpdateTrace, h1, h2] at hr
        subst hr
        refine ⟨fun hc => ?_, fun _ => by simp [hlist]⟩
        simp at hc
    · simp [processLoop, h1] at hr
      rcases hr with hr | hr
      · subst hr
        refine ⟨fun hc => ?_, fun _ => by simp [hlist]⟩
        simp [hst] at hc
      · refine ih (k + 1) (i + 1) _ _ r hr (by simp [hst]) (by simp)
          ?_ (by simp [hlist])
        simp [htot]
        omega

/-- Store-state invariant of the whole pipeline: every record ever
persisted for a job satisfies the completed-count equations when its
status is completed, and has an empty listings array otherwise. -/
theorem perform_mem (env : PipelineEnv) (req : ScrapingRequest)
    (r : JobRecord) (hr : r ∈ perform_scraping env req) :
    (r.status = "completed" →
      r.processed_listings = r.total_listings ∧
      r.total_listings = r.listings.length) ∧
    (r.status ≠ "completed" → r.listings = []) := by
  unfold perform_scraping at hr
  by_cases h0 : env.dbFail 0 = true
  · by_cases h1 : env.dbFail 1 = true
    · simp [errorUpdateTrace, h0, h1] at hr
      subst hr
      exact ⟨fun hc => by simp [start_scraping] at hc,
        fun _ => by simp [start_scraping]⟩
    · simp [errorUpdateTrace, h0, h1] at hr
      rcases hr with hr | hr <;> subst hr
      · exact ⟨fun hc => by simp [start_scraping] at hc,
          fun _ => by simp [start_scraping]⟩
      · exact ⟨fun hc => by simp [start_scraping] at hc,
          fun _ => by simp [start_scraping]⟩
  · cases hs : scrape_sahibinden_listings env.browser req.url req.month
        req.year with
    | error msg =>
      by_cases h1 : env.dbFail 1 = true
      · simp [errorUpdateTrace, h0, h1, hs] at hr
        rcases hr with hr | hr <;> subst hr
        · exact ⟨fun hc => by simp [start_scraping] at hc,
            fun _ => by simp [start_scraping]⟩
        · exact ⟨fun hc => by simp [start_scraping] at hc,
            fun _ => by simp [start_scraping]⟩
      · simp [errorUpdateTrace, h0, h1, hs] at hr
        rcases hr with hr | hr | hr <;> subst hr
        · exact ⟨fun hc => by simp [start_scraping] at hc,
            fun _ => by simp [start_scraping]⟩
        · exact ⟨fun hc => by simp [start_scraping] at hc,
            fun _ => by simp [start_scraping]⟩
        · exact ⟨fun hc => by simp [start_scraping] at hc,
            fun _ => by simp [start_scraping]⟩
    | ok cands =>
      by_cases h1 : env.dbFail 1 = true
      · by_cases h2 : env.dbFail 2 = true
        · simp [errorUpdateTrace, h0, h1, h2, hs] at hr
          rcases hr with hr | hr <;> subst hr
          · exact ⟨fun hc => by simp [start_scraping] at hc,
              fun _ => by simp [start_scraping]⟩
          · exact ⟨fun hc => by simp [start_scraping] at hc,
              fun _ => by simp [start_scraping]⟩
        · simp [errorUpdateTrace, h0, h1, h2, hs] at hr
          rcases hr with hr | hr | hr <;> subst hr
          · exact ⟨fun hc => by simp [start_scraping] at hc,
              fun _ => by simp [start_scraping]⟩
          · exact ⟨fun hc => by simp [start_scraping] at hc,
              fun _ => by simp [start_scraping]⟩
          · exact ⟨fun hc => by simp [start_scraping] at hc,
              fun _ => by simp [start_scraping]⟩
      · simp [h0, h1, hs] at hr
        rcases hr with hr | hr | hr | hr
        · subst hr
          exact ⟨fun hc => by simp [start_scraping] at hc,
            fun _ => by simp [start_scraping]⟩
        · subst hr
          exact ⟨fun hc => by simp [start_scraping] at hc,
            fun _ => by simp [start_scraping]⟩
        · subst hr
          exact ⟨fun hc => by simp [start_scraping] at hc,
            fun _ => by simp [start_scraping]⟩
        · exact processLoop_mem env cands 2 0 _ [] r hr
            (by simp [start_scraping]) (by simp [start_scraping])
            (by simp [start_scraping]) (by simp [start_scraping])

/-- C1 counterexample: when the store update that persists the first
progress count raises, the job status moves from processing_ai directly to
error, a transition outside both chains asserted by the claim. -/
theorem C1_counterexample :
    chainOkB claimedStep (statusTrace envLoopDbFail reqDemo) = false ∧
    statusTrace envLoopDbFail reqDemo =
      ["processing", "scraping", "processing_ai", "error"] :=
  ⟨rfl, rfl⟩

/-- C1 (amended): the status field moves only forward along
processing, scraping, processing_ai, completed, with stuttering progress
updates in processing_ai; error may be entered from any non-terminal
status, including processing_ai, when a store update raises; completed
and error are terminal, with no later update of the job record. -/
theorem C1_amended (env : PipelineEnv) (req : ScrapingRequest) :
    chainOkB allowedStep (statusTrace env req) = true ∧
    terminalOnlyLastB (statusTrace env req) = true := by
  unfold statusTrace perform_scraping
  by_cases h0 : env.dbFail 0 = true
  · by_cases h1 : env.dbFail 1 = true
    · simp [errorUpdateTrace, h0, h1, chainOkB, terminalOnlyLastB,
        start_scraping, allowedStep]
    · simp [errorUpdateTrace, h0, h1, chainOkB, terminalOnlyLastB,
        start_scraping, allowedStep]
  · cases hs : scrape_sahibinden_listings env.browser req.url req.month
        req.year with
    | error msg =>
      by_cases h1 : env.dbFail 1 = true
      · simp [errorUpdateTrace, h0, h1, hs, chainOkB, terminalOnlyLastB,
          start_scraping, allowedStep]
      · simp [errorUpdateTrace, h0, h1, hs, chainOkB, terminalOnlyLastB,
          start_scraping, allowedStep]
    | ok cands =>
      by_cases h1 : env.dbFail 1 = true
      · by_cases h2 : env.dbFail 2 = true
        · simp [errorUpdateTrace, h0, h1, h2, hs, chainOkB,
            terminalOnlyLastB, start_scraping, allowedStep]
        · simp [errorUpdateTrace, h0, h1, h2, hs, chainOkB,
            terminalOnlyLastB, start_scraping, allowedStep]
      · have hmain := processLoop_status_chain env cands 2 0
          { url := req.url, month := req.month, year := req.year,
            total_listings := cands.length, processed_listings := 0,
            status := "processing_ai", listings := [],
            error_message := none } [] rfl
        simp [h0, h1, hs, chainOkB, terminalOnlyLastB, allowedStep,
          start_scraping] at hmain ⊢
        exact hmain

/-- C2: every persisted job record whose status is completed has
processed_listings equal to total_listings equal to the length of its
listings array. -/
theorem C2_completed_counts (env : PipelineEnv) (req : ScrapingRequest)
    (r : JobRecord) (hr : r ∈ perform_scraping env req)
    (hc : r.status = "completed") :
    r.processed_listings = r.total_listings ∧
    r.total_listings = r.listings.length :=
  (perform_mem env req r hr).1 hc

/-- C2 witness: the run of Scenario A with a reliable store ends in a
completed record whose counters agree with its listings array. -/
theorem C2_witness :
    (finalRecord envOk reqDemo).processed_listings =
      (finalRecord envOk reqDemo).total_listings ∧
    (finalRecord envOk reqDemo).total_listings =
      (finalRecord envOk reqDemo).listings.length :=
  C2_completed_counts envOk reqDemo (finalRecord envOk reqDemo)
    (by decide) (by decide)

/-- C10: every persisted job record whose status is error still has an
empty listings array; listings are written only by the single final update
that also sets status completed. -/
theorem C10_error_no_listings (env : PipelineEnv) (req : ScrapingRequest)
    (r : JobRecord) (hr : r ∈ perform_scraping env req)
    (he : r.status = "error") : r.listings = [] :=
  (perform_mem env req r hr).2 (by simp [he])

/-- C10 witness: a run whose first in-loop progress update raises ends in
an error record whose listings array is empty. -/
theorem C10_witness : (finalRecord envLoopDbFail reqDemo).listings = [] :=
  C10_error_no_listings envLoopDbFail reqDemo
    (finalRecord envLoopDbFail reqDemo) (by decide) (by decide)

/-- With a reliable store the candidate loop always finishes with the
final completed update, and the completed record counts every candidate,
whatever the per-candidate extraction environments are. -/
theorem processLoop_noFail (env : PipelineEnv)
    (hdb : ∀ n, env.dbFail n = false) :
    ∀ (pending : List PropertyListing) (k i : Nat) (j : JobRecord)
      (acc : List PropertyListing),
      j.processed_listings = acc.length →
      (lastD j (processLoop env k i j pending acc)).status = "completed" ∧
      (lastD j (processLoop env k i j pending acc)).processed_listings =
        acc.length + pending.length := by
  intro pending
  induction pending with
  | nil =>
    intro k i j acc hproc
    simp [processLoop, hdb k, lastD, hproc]
  | cons cand rest ih =>
    intro k i j acc hproc
    have hrec := ih (k + 1) (i + 1)
      { j with processed_listings :=
          (process_listing_with_ai (env.extract i) cand :: acc).length }
      (process_listing_with_ai (env.extract i) cand :: acc) (by simp)
    have hPL : processLoop env k i j (cand :: rest) acc =
        { j with processed_listings :=
            (process_listing_with_ai (env.extract i) cand :: acc).length } ::
          processLoop env (k + 1) (i + 1)
            { j with processed_listings :=
                (process_listing_with_ai (env.extract i) cand :: acc).length }
            rest (process_listing_with_ai (env.extract i) cand :: acc) := by
      simp [processLoop, hdb k]
    rw [hPL, lastD_cons]
    refine ⟨hrec.1, ?_⟩
    rw [hrec.2]
    simp
    omega

/-- C3: the attribute extractor is total — every candidate yields a
record for every extraction environment (credential missing, AI raise,
malformed JSON, unexpected fallback failure), so with a reliable store the
orchestrator counts every scraped candidate in processed_listings and
finishes the job as completed, regardless of extraction quality. -/
theorem C3_extractor_total (env : PipelineEnv) (req : ScrapingRequest)
    (hdb : ∀ n, env.dbFail n = false)
    (h1 : 1 ≤ req.month) (h2 : req.month ≤ 12) :
    ∃ cands,
      scrape_sahibinden_listings env.browser req.url req.month req.year =
        .ok cands ∧
      (finalRecord env req).status = "completed" ∧
      (finalRecord env req).processed_listings = cands.length := by
  obtain ⟨cands, hs⟩ :=
    scrape_ok_of_month env.browser req.url req.month req.year h1 h2
  refine ⟨cands, hs, ?_⟩
  have hloop := processLoop_noFail env hdb cands 2 0
    { url := req.url, month := req.month, year := req.year,
      total_listings := cands.length, processed_listings := 0,
      status := "processing_ai", listings := [], error_message := none }
    [] rfl
  unfold finalRecord perform_scraping
  simp only [hdb 0, hdb 1, hs, Bool.false_eq_true, if_false]
  rw [lastD_cons, lastD_cons, lastD_cons]
  simp [start_scraping] at hloop ⊢
  exact hloop

/-- C3 witness: Scenario A with an unavailable browser, no AI credential
and a reliable store completes with all 3 demo candidates counted. -/
theorem C3_witness :
    scrape_sahibinden_listings envOk.browser reqDemo.url reqDemo.month
        reqDemo.year = .ok create_demo_listings ∧
    (finalRecord envOk reqDemo).status = "completed" ∧
    (finalRecord envOk reqDemo).processed_listings =
      create_demo_listings.length := by
  obtain ⟨cands, hs, hc, hp⟩ :=
    C3_extractor_total envOk reqDemo (fun _ => rfl) (by decide) (by decide)
  have hdemo : scrape_sahibinden_listings envOk.browser reqDemo.url
      reqDemo.month reqDemo.year = Except.ok create_demo_listings := rfl
  have hcands : cands = create_demo_listings :=
    (Except.ok.inj (hdemo.symm.trans hs)).symm
  exact ⟨hdemo, hc, hcands ▸ hp⟩

/-- C4 counterexample: on browser-launch failure the page acquisition
returns an ordinary ok listing list, not a failure signal, and its
navigation-failure result is identical to a successful-navigation result,
so the two failure cases are not distinguished from success by any
explicit signal. -/
theorem C4_counterexample :
    scrape_sahibinden_listings .launchFail "https://example.com/listings" 7
        2025 = .ok create_demo_listings ∧
    create_demo_listings.length = 3 ∧
    scrape_sahibinden_listings .navFail "https://example.com/listings" 7
        2025 =
      scrape_sahibinden_listings
        (.navOk "<html><body>A perfectly fine page</body></html>")
        "https://example.com/listings" 7 2025 :=
  ⟨rfl, rfl, rfl⟩

/-- C4 (amended): on failure the page acquisition does not raise, but it
returns fallback listing data rather than a failure signal: a launch
failure yields the fixed 3-listing demo set, while a navigation failure
yields the from-content demo set for the fixed demo content, which is ok
and identical to the result of a successful navigation, so the caller
cannot distinguish a navigation failure from success. -/
theorem C4_amended (url : String) (m y : Int) (content : String)
    (h1 : 1 ≤ m) (h2 : m ≤ 12) :
    scrape_sahibinden_listings .launchFail url m y =
      .ok create_demo_listings ∧
    scrape_sahibinden_listings .navFail url m y =
      create_demo_listings_from_content demoContent m ∧
    (create_demo_listings_from_content demoContent m).toOption.isSome =
      true ∧
    scrape_sahibinden_listings (.navOk content) url m y =
      scrape_sahibinden_listings .navFail url m y := by
  obtain ⟨name, hn⟩ := monthNames_isSome m h1 h2
  have hc := fun c => from_content_ok c m name hn
  refine ⟨rfl, ?_, ?_, ?_⟩
  · unfold scrape_sahibinden_listings
    rw [hc demoContent]
  · rw [hc demoContent]
    rfl
  · simp only [scrape_sahibinden_listings]
    rw [hc content, hc demoContent]

/-- C4 witness: a concrete month inside the valid range exercises the
amended acquisition behavior. -/
theorem C4_witness :
    scrape_sahibinden_listings .launchFail "https://example.com/listings" 7
        2024 = .ok create_demo_listings ∧
    scrape_sahibinden_listings .navFail "https://example.com/listings" 7
        2024 = create_demo_listings_from_content demoContent 7 ∧
    (create_demo_listings_from_content demoContent 7).toOption.isSome =
      true ∧
    scrape_sahibinden_listings (.navOk "<html><body>ok</body></html>")
        "https://example.com/listings" 7 2024 =
      scrape_sahibinden_listings .navFail "https://example.com/listings" 7
        2024 :=
  C4_amended "https://example.com/listings" 7 2024
    "<html><body>ok</body></html>" (by decide) (by decide)

/-- C5 counterexample: with requested month 1 and requested year 2024, the
navigation-failure fallback stamps every listing_date with the literal
year 2025, and the launch-failure fallback produces 3 candidates whose
listing_date is empty, embedding neither the month nor the year. -/
theorem C5_counterexample :
    ((scrape_sahibinden_listings .navFail "u" 1 2024).toOption.getD
        []).map (fun r => r.listing_date) =
      ["15 Ocak 2025", "22 Ocak 2025", "8 Ocak 2025", "28 Ocak 2025"] ∧
    strHasSub "15 Ocak 2025" "2024" = false ∧
    ((scrape_sahibinden_listings .launchFail "u" 1 2024).toOption.getD
        []).map (fun r => r.listing_date) = ["", "", ""] :=
  ⟨rfl, rfl, rfl⟩

/-- C5 (amended): for a requested month inside 1..12, the
navigation-failure fallback deterministically yields exactly 4 synthetic
candidates whose listing_date embeds the Turkish name of the requested
month and the fixed literal year 2025, whatever year was requested; the
launch-failure fallback instead yields the fixed 3-candidate set whose
listing_date is empty. -/
theorem C5_amended (url : String) (m y : Int) (h1 : 1 ≤ m)
    (h2 : m ≤ 12) :
    scrape_sahibinden_listings .navFail url m y =
      .ok (demoListFor ((monthNames m).getD "")) ∧
    (demoListFor ((monthNames m).getD "")).length = 4 ∧
    (∀ r ∈ demoListFor ((monthNames m).getD ""),
      strHasSub r.listing_date ((monthNames m).getD "") = true ∧
      strHasSub r.listing_date "2025" = true) ∧
    scrape_sahibinden_listings .launchFail url m y =
      .ok create_demo_listings ∧
    (∀ r ∈ create_demo_listings, r.listing_date = "") := by
  interval_cases m <;>
    exact ⟨rfl, rfl, by decide, rfl, by decide⟩

/-- C5 witness: the amended locator fallback behavior at month 7 and
requested year 2024. -/
theorem C5_witness :
    scrape_sahibinden_listings .navFail "u" 7 2024 =
      .ok (demoListFor ((monthNames 7).getD "")) ∧
    (demoListFor ((monthNames 7).getD "")).length = 4 ∧
    (∀ r ∈ demoListFor ((monthNames 7).getD ""),
      strHasSub r.listing_date ((monthNames 7).getD "") = true ∧
      strHasSub r.listing_date "2025" = true) ∧
    scrape_sahibinden_listings .launchFail "u" 7 2024 =
      .ok create_demo_listings ∧
    (∀ r ∈ create_demo_listings, r.listing_date = "") :=
  C5_amended "u" 7 2024 (by decide) (by decide)

/-- C6 counterexample: the heuristic fallback fills owner_name with its
placeholder but leaves complex_name empty, so not every one of the ten
attribute fields is non-empty on the fallback path. -/
theorem C6_counterexample :
    (process_listing_with_ai extractNoAi emptyCandidate).owner_name =
      "HTML Parse Gerekli" ∧
    (process_listing_with_ai extractNoAi emptyCandidate).complex_name =
      "" :=
  ⟨rfl, rfl⟩

/-- When no credential is configured, the fallback block does not raise,
and the candidate does not short-circuit, the extractor output is exactly
the heuristic default fill. -/
theorem process_fallback_eq (env : ExtractEnv) (l : PropertyListing)
    (hkey : env.geminiKey = false) (hfr : env.fallbackRaise = false)
    (hsc : l.owner_name = "" ∨ l.price = "") :
    process_listing_with_ai env l = heuristicFill l := by
  rcases hsc with h | h <;>
    simp [process_listing_with_ai, ai_body, fallbackFill, hkey, hfr, h]

/-- C6 (amended): every ListingRecord produced via the heuristic fallback
path has nine of the ten attribute fields non-empty (placeholder-filled);
complex_name is not touched by the fallback block and keeps its prior
value, which may be empty. -/
theorem C6_amended (env : ExtractEnv) (l : PropertyListing)
    (hkey : env.geminiKey = false) (hfr : env.fallbackRaise = false)
    (hsc : l.owner_name = "" ∨ l.price = "") :
    (process_listing_with_ai env l).owner_name ≠ "" ∧
    (process_listing_with_ai env l).contact_number ≠ "" ∧
    (process_listing_with_ai env l).room_count ≠ "" ∧
    (process_listing_with_ai env l).net_area ≠ "" ∧
    (process_listing_with_ai env l).is_in_complex ≠ "" ∧
    (process_listing_with_ai env l).heating_type ≠ "" ∧
    (process_listing_with_ai env l).parking_type ≠ "" ∧
    (process_listing_with_ai env l).credit_suitable ≠ "" ∧
    (process_listing_with_ai env l).price ≠ "" ∧
    (process_listing_with_ai env l).complex_name = l.complex_name := by
  rw [process_fallback_eq env l hkey hfr hsc]
  refine ⟨?_, ?_, ?_, ?_, ?_, ?_, ?_, ?_, ?_, rfl⟩ <;>
    · simp only [heuristicFill]
      split <;> simp_all

/-- C6 witness: the fully empty candidate processed without a credential
yields nine placeholder-filled fields and an unchanged complex_name. -/
theorem C6_witness :
    (process_listing_with_ai extractNoAi emptyCandidate).owner_name ≠ "" ∧
    (process_listing_with_ai extractNoAi emptyCandidate).contact_number ≠
      "" ∧
    (process_listing_with_ai extractNoAi emptyCandidate).room_count ≠ "" ∧
    (process_listing_with_ai extractNoAi emptyCandidate).net_area ≠ "" ∧
    (process_listing_with_ai extractNoAi emptyCandidate).is_in_complex ≠
      "" ∧
    (process_listing_with_ai extractNoAi emptyCandidate).heating_type ≠
      "" ∧
    (process_listing_with_ai extractNoAi emptyCandidate).parking_type ≠
      "" ∧
    (process_listing_with_ai extractNoAi emptyCandidate).credit_suitable ≠
      "" ∧
    (process_listing_with_ai extractNoAi emptyCandidate).price ≠ "" ∧
    (process_listing_with_ai extractNoAi emptyCandidate).complex_name =
      emptyCandidate.complex_name :=
  C6_amended extractNoAi emptyCandidate rfl rfl (Or.inl rfl)

/-- C7 counterexample: the heuristic-fallback placeholder for room_count
equals the AI-path default for room_count, so the fallback placeholder is
not distinct from the AI-path placeholder for every field. -/
theorem C7_counterexample :
    (process_listing_with_ai extractNoAi emptyCandidate).room_count =
      (process_listing_with_ai extractAiEmpty emptyCandidate).room_count ∧
    (process_listing_with_ai extractNoAi emptyCandidate).room_count =
      "Belirtilmemiş" :=
  ⟨rfl, rfl⟩

/-- C7 (amended): without an AI credential a non-short-circuiting
candidate is placeholder-filled by the heuristic fallback; the owner_name
and contact_number placeholders are distinct from the AI-path
"Tespit Edilemedi" defaults, but the placeholders of the other seven
filled fields are the very string "Belirtilmemiş" the AI path substitutes
for omitted fields, so the two paths are not distinguishable on those
fields. -/
theorem C7_amended (env : ExtractEnv) (l : PropertyListing)
    (hkey : env.geminiKey = false) (hfr : env.fallbackRaise = false)
    (ho : l.owner_name = "") (hcn : l.contact_number = "")
    (hrc : l.room_count = "") (hna : l.net_area = "")
    (hic : l.is_in_complex = "") (hht : l.heating_type = "")
    (hpt : l.parking_type = "") (hcs : l.credit_suitable = "")
    (hp : l.price = "") :
    (process_listing_with_ai env l).owner_name = "HTML Parse Gerekli" ∧
    (process_listing_with_ai env l).contact_number = "Detay Sayfasında" ∧
    (process_listing_with_ai extractAiEmpty emptyCandidate).owner_name =
      "Tespit Edilemedi" ∧
    (process_listing_with_ai env l).owner_name ≠
      (process_listing_with_ai extractAiEmpty emptyCandidate).owner_name ∧
    (process_listing_with_ai env l).contact_number ≠
      (process_listing_with_ai extractAiEmpty
        emptyCandidate).contact_number ∧
    (process_listing_with_ai env l).room_count =
      (process_listing_with_ai extractAiEmpty emptyCandidate).room_count ∧
    (process_listing_with_ai env l).net_area =
      (process_listing_with_ai extractAiEmpty emptyCandidate).net_area ∧
    (process_listing_with_ai env l).is_in_complex =
      (process_listing_with_ai extractAiEmpty
        emptyCandidate).is_in_complex ∧
    (process_listing_with_ai env l).heating_type =
      (process_listing_with_ai extractAiEmpty
        emptyCandidate).heating_type ∧
    (process_listing_with_ai env l).parking_type =
      (process_listing_with_ai extractAiEmpty
        emptyCandidate).parking_type ∧
    (process_listing_with_ai env l).credit_suitable =
      (process_listing_with_ai extractAiEmpty
        emptyCandidate).credit_suitable ∧
    (process_listing_with_ai env l).price =
      (process_listing_with_ai extractAiEmpty emptyCandidate).price ∧
    (process_listing_with_ai env l).room_count = "Belirtilmemiş" := by
  rw [process_fallback_eq env l hkey hfr (Or.inl ho)]
  simp [heuristicFill, ho, hcn, hrc, hna, hic, hht, hpt, hcs, hp]
  decide

/-- C7 witness: the empty candidate without a credential shows the
coinciding and the differing placeholders concretely. -/
theorem C7_witness :
    (process_listing_with_ai extractNoAi emptyCandidate).owner_name =
      "HTML Parse Gerekli" ∧
    (process_listing_with_ai extractNoAi emptyCandidate).contact_number =
      "Detay Sayfasında" ∧
    (process_listing_with_ai extractAiEmpty emptyCandidate).owner_name =
      "Tespit Edilemedi" ∧
    (process_listing_with_ai extractNoAi emptyCandidate).owner_name ≠
      (process_listing_with_ai extractAiEmpty emptyCandidate).owner_name ∧
    (process_listing_with_ai extractNoAi emptyCandidate).contact_number ≠
      (process_listing_with_ai extractAiEmpty
        emptyCandidate).contact_number ∧
    (process_listing_with_ai extractNoAi emptyCandidate).room_count =
      (process_listing_with_ai extractAiEmpty emptyCandidate).room_count ∧
    (process_listing_with_ai extractNoAi emptyCandidate).net_area =
      (process_listing_with_ai extractAiEmpty emptyCandidate).net_area ∧
    (process_listing_with_ai extractNoAi emptyCandidate).is_in_complex =
      (process_listing_with_ai extractAiEmpty
        emptyCandidate).is_in_complex ∧
    (process_listing_with_ai extractNoAi emptyCandidate).heating_type =
      (process_listing_with_ai extractAiEmpty
        emptyCandidate).heating_type ∧
    (process_listing_with_ai extractNoAi emptyCandidate).parking_type =
      (process_listing_with_ai extractAiEmpty
        emptyCandidate).parking_type ∧
    (process_listing_with_ai extractNoAi emptyCandidate).credit_suitable =
      (process_listing_with_ai extractAiEmpty
        emptyCandidate).credit_suitable ∧
    (process_listing_with_ai extractNoAi emptyCandidate).price =
      (process_listing_with_ai extractAiEmpty emptyCandidate).price ∧
    (process_listing_with_ai extractNoAi emptyCandidate).room_count =
      "Belirtilmemiş" :=
  C7_amended extractNoAi emptyCandidate rfl rfl rfl rfl rfl rfl rfl rfl
    rfl rfl rfl

/-- C8 counterexample: a submit-job body with month 13 passes validation
and yields a newly created job with status processing instead of an
immediate error response. -/
theorem C8_counterexample :
    parseScrapeBody
        { url := some "https://example.com/listings", month := some 13,
          year := none } =
      .ok { url := "https://example.com/listings", month := 13,
            year := 2025 } ∧
    (start_scraping
        { url := "https://example.com/listings", month := 13,
          year := 2025 }).status = "processing" :=
  ⟨rfl, rfl⟩

/-- C8 (amended): validation checks only field presence and types, so
every submit-job body carrying a url and an integer month — any integer,
including values outside 1..12 — is accepted, and the caller immediately
receives a newly created JobRecord with status processing rather than an
immediate error response. -/
theorem C8_amended (b : RawScrapeBody) (u : String) (m : Int)
    (hu : b.url = some u) (hm : b.month = some m) :
    parseScrapeBody b =
      .ok { url := u, month := m, year := b.year.getD 2025 } ∧
    (start_scraping
      { url := u, month := m, year := b.year.getD 2025 }).status =
      "processing" := by
  refine ⟨?_, rfl⟩
  unfold parseScrapeBody
  rw [hu, hm]

/-- C8 witness: the month-13 body is accepted and the job starts in
status processing. -/
theorem C8_witness :
    parseScrapeBody
        { url := some "https://example.com/listings", month := some 13,
          year := none } =
      .ok { url := "https://example.com/listings", month := 13,
            year := ((none : Option Int)).getD 2025 } ∧
    (start_scraping
      { url := "https://example.com/listings", month := 13,
        year := ((none : Option Int)).getD 2025 }).status =
      "processing" :=
  C8_amended
    { url := some "https://example.com/listings", month := some 13,
      year := none }
    "https://example.com/listings" 13 rfl rfl

/-- C9 (amended): both exports handle a job with zero listings without
error, but only the PDF renders the header row alone; the Excel table is
entirely empty because its header row derives from the listing rows. -/
theorem C9_amended (job : JobRecord) (h : job.listings = []) :
    export_pdf job = [exportHeaders] ∧ export_excel job = [] := by
  simp [export_pdf, export_excel, h]

/-- C9 witness: the freshly inserted job has no listings; its PDF export
is header-only and its Excel export is empty. -/
theorem C9_witness :
    export_pdf emptyJob = [exportHeaders] ∧ export_excel emptyJob = [] :=
  C9_amended emptyJob rfl

/-- C9 counterexample: for a job with zero listings the PDF table is the
header row only, but the Excel table is entirely empty, with no header
row, because the frame columns derive from the absent row dicts. -/
theorem C9_counterexample :
    export_excel emptyJob = [] ∧
    export_pdf emptyJob = [exportHeaders] ∧
    ([] : List (List String)) ≠ [exportHeaders] :=
  ⟨rfl, rfl, by decide⟩

end Emlak
